import Mathlib

set_option autoImplicit false

/-!
# sim-fetchx: the request pipeline of `src/src/core.ts`

A shallow embedding of the `SimFetch` client (`src/src/core.ts`, compiled to
`src/dist/core.js`) and of `createError` (`src/dist/utils/error.js`).

* Promises are modelled by explicit state passing: an asynchronous function
  takes the state of the outside world (`τ`) and returns its settlement
  (`Except`: resolved or rejected) with the world after it.
* The two effects the retry logic has are recorded in the result of a run:
  how many times the attempt function was invoked (`calls`) and the
  `setTimeout` delays awaited between the invocations, in order (`waits`).
* The host functions `fetch` and `JSON.stringify` are not code of the
  repository; they are parameters (`Host`).
* `Date.now()` is a parameter of the one method that reads it (`get`).
-/

/-! ## JavaScript values -/

/-- JavaScript values that travel through request options and error bodies. -/
inductive JsVal where
  | undefined
  | null
  | bool (b : Bool)
  | num (n : Int)
  | str (s : String)
  | obj (fields : List (String × JsVal))
  | arr (items : List JsVal)

/-- A plain object (`Record<string, any>`): its own properties in insertion order. -/
abbrev Obj := List (String × JsVal)

/-- `o[k] = v` on a plain object: an existing property keeps its place and
takes the new value, a new property is appended. -/
def Obj.set : Obj → String → JsVal → Obj
  | [], k, v => [(k, v)]
  | (k1, v1) :: rest, k, v =>
    if k1 = k then (k, v) :: rest else (k1, v1) :: Obj.set rest k v

/-- `Object.assign(target, source)`, which is what the object spread
`{ ...target, ...source }` compiles to (`src/dist/core.js`): the properties of
`source` are set on `target` one after the other. -/
def Obj.assign (target source : Obj) : Obj :=
  source.foldl (fun o kv => Obj.set o kv.1 kv.2) target

/-- Property read `o[k]`. -/
def Obj.get (o : Obj) (k : String) : Option JsVal :=
  match o with
  | [] => none
  | (k1, v1) :: rest => if k1 = k then some v1 else Obj.get rest k

/-- An optional options argument spread into an object literal: `...undefined`
contributes nothing. -/
def spreadArg (options : Option Obj) : Obj :=
  match options with
  | some o => o
  | none => []

/-- An optional options argument as a JavaScript value. -/
def argVal (options : Option Obj) : JsVal :=
  match options with
  | some o => JsVal.obj o
  | none => JsVal.undefined

/-- JavaScript `x || d` on an optional number: `undefined` and `0` are falsy. -/
def orNat (x : Option Nat) (d : Nat) : Nat :=
  match x with
  | none => d
  | some 0 => d
  | some (n + 1) => n + 1

/-- JavaScript `x || d` on an optional object: only `undefined` is falsy. -/
def orObj (x : Option Obj) (d : Obj) : Obj :=
  match x with
  | none => d
  | some o => o

/-- JavaScript `x || true` on an optional boolean. -/
def orTrue (x : Option Bool) : Bool :=
  match x with
  | some true => true
  | _ => true

/-! ## `src/dist/utils/error.js` -/

/-- The value `createError` returns (`SFetchError` of `src/utils/types.ts`):
exactly the three properties `error`, `hint` and `learnMore`. -/
structure SFetchError where
  error : JsVal
  hint : String
  learnMore : String

/-- The table `STATUS_CODE_MESSAGES`: status, hint, learnMore. -/
def STATUS_CODE_MESSAGES : List (Nat × String × String) :=
  [ (400, "Check your request parameters or body. You might have sent invalid data.",
          "https://developer.mozilla.org/en-US/docs/Web/HTTP/Status/400"),
    (401, "You are not authorized to access this resource. Please check your credentials.",
          "https://developer.mozilla.org/en-US/docs/Web/HTTP/Status/401"),
    (403, "You do not have permission to access this resource. Contact the administrator if you believe this is a mistake.",
          "https://developer.mozilla.org/en-US/docs/Web/HTTP/Status/403"),
    (404, "The resource you are looking for does not exist. Double-check the URL or resource ID.",
          "https://developer.mozilla.org/en-US/docs/Web/HTTP/Status/404"),
    (500, "Something went wrong on the server. Please try again later or contact support.",
          "https://developer.mozilla.org/en-US/docs/Web/HTTP/Status/500") ]

/-- The local `defaultMessage` of `createError`. -/
def defaultMessage : String × String :=
  ("An unexpected error occurred. Please try again later.",
   "https://developer.mozilla.org/en-US/docs/Web/HTTP/Status")

/-- `STATUS_CODE_MESSAGES[status]`. -/
def statusMessage (status : Nat) : List (Nat × String × String) → Option (String × String)
  | [] => none
  | (s, m) :: rest => if s = status then some m else statusMessage status rest

/-- `createError(status, error)`. -/
def createError (status : Nat) (error : JsVal) : SFetchError :=
  match statusMessage status STATUS_CODE_MESSAGES with
  | some (hint, learnMore) => { error := error, hint := hint, learnMore := learnMore }
  | none => { error := error, hint := defaultMessage.1, learnMore := defaultMessage.2 }

/-! ## Responses, thrown values, the host -/

/-- A value the transport rejects with, as far as the client looks at it. -/
structure JsError where
  /-- Whether `error instanceof Error` holds. -/
  isError : Bool
  /-- Property `name`. -/
  name : String
  /-- Property `response`: `none` when absent or falsy, otherwise the `status`
  of the response, itself `none` when it has no numeric status. -/
  response : Option (Option Nat)
  /-- Property `message`. -/
  message : String

/-- A `Response` of the Fetch API, as far as the client looks at it. -/
structure Response where
  /-- Field `status`. -/
  status : Nat
  /-- What `json()` resolves to; `none` when it rejects. -/
  jsonBody : Option JsVal
  /-- What `text()` resolves to; `none` when it rejects. -/
  textBody : Option String
  /-- Whether `body` is non-null. -/
  hasBody : Bool
  /-- The bytes `blob()` resolves to; `none` when it rejects. -/
  blobBody : Option (List Nat) := none
  /-- The bytes `arrayBuffer()` resolves to; `none` when it rejects. -/
  arrayBufferBody : Option (List Nat) := none
  /-- What a body-reading method rejects with when it rejects. -/
  readError : JsError :=
    { isError := true, name := "TypeError", response := none, message := "" }

/-- Field `ok` (Fetch standard): the status is in the range 200 to 299. -/
def Response.ok (r : Response) : Bool :=
  decide (200 ≤ r.status ∧ r.status ≤ 299)

/-- The method `clone()`: a second response with the same content. -/
def Response.clone (r : Response) : Response :=
  { status := r.status, jsonBody := r.jsonBody, textBody := r.textBody, hasBody := r.hasBody,
    blobBody := r.blobBody, arrayBufferBody := r.arrayBufferBody, readError := r.readError }

/-- What an attempt can throw: an object built by `createError`, or a value that
came from the transport. -/
inductive Thrown where
  | sfetch (e : SFetchError)
  | js (e : JsError)

/-- The host: global `fetch` (a settlement and the world after the attempt) and
`JSON.stringify` (`none` for `undefined`). -/
structure Host (τ : Type) where
  fetch : String → Obj → τ → Except JsError Response × τ
  stringify : JsVal → Option String

/-- A string interpolated in a template literal. -/
def template (s : Option String) : String :=
  match s with
  | some t => t
  | none => "undefined"

/-- The value of `JSON.stringify(data)`. -/
def stringifyVal {τ : Type} (host : Host τ) (data : JsVal) : JsVal :=
  match host.stringify data with
  | some t => JsVal.str t
  | none => JsVal.undefined

/-! ## `src/src/core.ts` -/

def MAX_RETRIES : Nat := 5

def RETRY_DELAY : Nat := 1000

def CACHE_TTL : Int := 60000

/-- The configuration object `IFetch`; every field but `baseUrl` may be absent. -/
structure IFetch where
  baseUrl : String
  timeout : Option Nat := none
  retry : Option Bool := none
  retryNumber : Option Nat := none
  options : Option Obj := none

/-- A value of the field `cache`. -/
structure CacheEntry where
  response : Response
  timestamp : Int

/-- The fields of class `SimFetch`. -/
structure SimFetch where
  baseUrl : String
  options : Obj
  timeout : Nat
  retry : Bool
  retryNum : Nat
  cache : String → Option CacheEntry

/-- The constructor. -/
def SimFetch.new (config : IFetch) : SimFetch :=
  { baseUrl := config.baseUrl
    options := orObj config.options []
    timeout := orNat config.timeout 5000
    retry := orTrue config.retry
    retryNum := orNat config.retryNumber 5
    cache := fun _ => none }

/-- The settlement of an asynchronous call with its effects: the world after
it, the number of invocations of the attempt function, and the delays awaited
between them, in order. -/
structure Run (τ ρ : Type) where
  result : Except Thrown ρ
  world : τ
  calls : Nat
  waits : List Nat

/-- The list `[408, 500, 502, 503, 504]` of `_retry`. -/
def RETRY_STATUSES : List Nat := [408, 500, 502, 503, 504]

/-- The negation of the test of `_retry`:
`!error.response || ![408, 500, 502, 503, 504].includes(error.response.status)`.
An object built by `createError` has no property `response`. -/
def retryEligible (error : Thrown) : Bool :=
  match error with
  | Thrown.sfetch _ => false
  | Thrown.js e =>
    match e.response with
    | some (some status) => decide (status ∈ RETRY_STATUSES)
    | _ => false

/-- The method `_retry(fn, retries, delay)`. -/
def SimFetch._retry {τ ρ : Type} (fn : τ → Except Thrown ρ × τ) : Nat → Nat → τ → Run τ ρ
  | 0, _, w =>
    match fn w with
    | (Except.ok r, w1) => { result := Except.ok r, world := w1, calls := 1, waits := [] }
    | (Except.error error, w1) =>
      { result := Except.error error, world := w1, calls := 1, waits := [] }
  | retries + 1, delay, w =>
    match fn w with
    | (Except.ok r, w1) => { result := Except.ok r, world := w1, calls := 1, waits := [] }
    | (Except.error error, w1) =>
      if retryEligible error then
        let rest := SimFetch._retry fn retries (delay * 2) w1
        { result := rest.result, world := rest.world, calls := rest.calls + 1,
          waits := delay :: rest.waits }
      else
        { result := Except.error error, world := w1, calls := 1, waits := [] }

/-- The closure `fetchWithRetry` of `_fetch`: one transport attempt. The object
thrown for a response that is not ok passes through the `catch` of the closure
unchanged (it is no `Error`); `clearTimeout` and `console.error` have no effect
on the settlement and are left out. -/
def SimFetch.fetchWithRetry {τ : Type} (host : Host τ) (url : String) (options : Obj)
    (w : τ) : Except Thrown Response × τ :=
  match host.fetch url options w with
  | (Except.ok response, w1) =>
    if !response.ok then
      let errorData : JsVal :=
        match response.jsonBody with
        | some j => j
        | none =>
          match response.textBody with
          | some t => JsVal.str t
          | none => JsVal.str "Response type not known"
      (Except.error (Thrown.sfetch (createError response.status errorData)), w1)
    else
      (Except.ok response, w1)
  | (Except.error error, w1) =>
    if error.isError && error.name == "AbortError" then
      (Except.error (Thrown.sfetch
        (createError 408 (JsVal.str "Request timed out. Please check your network connection."))), w1)
    else
      (Except.error (Thrown.js error), w1)

/-- The method `_fetch(url, options)`: `_retry` is called with its default
`retries = MAX_RETRIES` and `delay = RETRY_DELAY`; the field `retryNum` is not read. -/
def SimFetch._fetch {τ : Type} (_self : SimFetch) (host : Host τ) (url : String) (options : Obj)
    (w : τ) : Run τ Response :=
  SimFetch._retry (SimFetch.fetchWithRetry host url options) MAX_RETRIES RETRY_DELAY w

/-- The method `create(path, options)`. -/
def SimFetch.create {τ : Type} (self : SimFetch) (host : Host τ) (path : String)
    (options : Option Obj) (w : τ) : Run τ Response :=
  let url := self.baseUrl ++ path
  let fetchOptions := Obj.assign (Obj.assign [] self.options) (spreadArg options)
  self._fetch host url fetchOptions w

/-- The object literal `{ method: 'GET', ...options }` of `get`. -/
def getInit (options : Option Obj) : Obj :=
  Obj.assign [("method", JsVal.str "GET")] (spreadArg options)

/-- The object literal `{ method: 'POST', body: JSON.stringify(data), ...options }` of `post`. -/
def postInit {τ : Type} (host : Host τ) (data : JsVal) (options : Option Obj) : Obj :=
  Obj.assign [("method", JsVal.str "POST"), ("body", stringifyVal host data)] (spreadArg options)

/-- The object literal `{ method: 'PUT', body: JSON.stringify(data), ...options }` of `put`. -/
def putInit {τ : Type} (host : Host τ) (data : JsVal) (options : Option Obj) : Obj :=
  Obj.assign [("method", JsVal.str "PUT"), ("body", stringifyVal host data)] (spreadArg options)

/-- The object literal `{ method: 'DELETE', ...options }` of `delete`. -/
def deleteInit (options : Option Obj) : Obj :=
  Obj.assign [("method", JsVal.str "DELETE")] (spreadArg options)

/-- The template literal that builds `cacheKey` in `get`. -/
def SimFetch.cacheKey {τ : Type} (self : SimFetch) (host : Host τ) (path : String)
    (options : Option Obj) : String :=
  (self.baseUrl ++ path) ++ ":" ++ template (host.stringify (argVal options))

/-- The assignment `this.cache[cacheKey] = entry`. -/
def cacheSet (cache : String → Option CacheEntry) (cacheKey : String) (entry : CacheEntry) :
    String → Option CacheEntry :=
  fun k => if k = cacheKey then some entry else cache k

/-- The statement `this.cache[cacheKey] = { response: response.clone(), timestamp: Date.now() }`
of `get`, `now` being what `Date.now()` returns. -/
def SimFetch.store (self : SimFetch) (cacheKey : String) (response : Response) (now : Int) :
    SimFetch :=
  { self with cache := cacheSet self.cache cacheKey { response := response.clone, timestamp := now } }

/-- The method `get(path, options)`. `now1` is what `Date.now()` returns in the
cache test, `now2` what it returns when the entry is stored. The result is the
settlement with its effects and the client after the call. -/
def SimFetch.get {τ : Type} (self : SimFetch) (host : Host τ) (path : String)
    (options : Option Obj) (now1 now2 : Int) (w : τ) : Run τ Response × SimFetch :=
  let cacheKey := self.cacheKey host path options
  let miss : Run τ Response × SimFetch :=
    let run := self.create host path (some (getInit options)) w
    match run.result with
    | Except.ok response =>
      (run, self.store cacheKey response now2)
    | Except.error _ => (run, self)
  match self.cache cacheKey with
  | some entry =>
    if now1 - entry.timestamp < CACHE_TTL then
      ({ result := Except.ok entry.response.clone, world := w, calls := 0, waits := [] }, self)
    else miss
  | none => miss

/-- The method `post(path, data, options)`. -/
def SimFetch.post {τ : Type} (self : SimFetch) (host : Host τ) (path : String) (data : JsVal)
    (options : Option Obj) (w : τ) : Run τ Response :=
  self.create host path (some (postInit host data options)) w

/-- The method `put(path, data, options)`. -/
def SimFetch.put {τ : Type} (self : SimFetch) (host : Host τ) (path : String) (data : JsVal)
    (options : Option Obj) (w : τ) : Run τ Response :=
  self.create host path (some (putInit host data options)) w

/-- The method `delete(path, options)`. -/
def SimFetch.delete {τ : Type} (self : SimFetch) (host : Host τ) (path : String)
    (options : Option Obj) (w : τ) : Run τ Response :=
  self.create host path (some (deleteInit options)) w

/-- The method `clearCache()`. -/
def SimFetch.clearCache (self : SimFetch) : SimFetch :=
  { self with cache := fun _ => none }

/-- The settlement of a call that awaits `create` and then reads the response with
`read`, the effects being those of `create`. -/
def readWith {τ α : Type} (run : Run τ Response) (read : Response → Except Thrown α) : Run τ α :=
  match run.result with
  | Except.ok response =>
    { result := read response, world := run.world, calls := run.calls, waits := run.waits }
  | Except.error error =>
    { result := Except.error error, world := run.world, calls := run.calls, waits := run.waits }

/-- The method `json(path, options)`. -/
def SimFetch.json {τ : Type} (self : SimFetch) (host : Host τ) (path : String)
    (options : Option Obj) (w : τ) : Run τ JsVal :=
  readWith (self.create host path options w) (fun response =>
    match response.jsonBody with
    | some j => Except.ok j
    | none => Except.error (Thrown.js response.readError))

/-- The method `text(path, options)`. -/
def SimFetch.text {τ : Type} (self : SimFetch) (host : Host τ) (path : String)
    (options : Option Obj) (w : τ) : Run τ String :=
  readWith (self.create host path options w) (fun response =>
    match response.textBody with
    | some t => Except.ok t
    | none => Except.error (Thrown.js response.readError))

/-- The method `blob(path, options)`. -/
def SimFetch.blob {τ : Type} (self : SimFetch) (host : Host τ) (path : String)
    (options : Option Obj) (w : τ) : Run τ (List Nat) :=
  readWith (self.create host path options w) (fun response =>
    match response.blobBody with
    | some b => Except.ok b
    | none => Except.error (Thrown.js response.readError))

/-- The method `arrayBuffer(path, options)`. -/
def SimFetch.arrayBuffer {τ : Type} (self : SimFetch) (host : Host τ) (path : String)
    (options : Option Obj) (w : τ) : Run τ (List Nat) :=
  readWith (self.create host path options w) (fun response =>
    match response.arrayBufferBody with
    | some b => Except.ok b
    | none => Except.error (Thrown.js response.readError))

/-- The method `stream(path, options)`; the stream handed back is identified with
the response it reads. -/
def SimFetch.stream {τ : Type} (self : SimFetch) (host : Host τ) (path : String)
    (options : Option Obj) (w : τ) : Run τ Response :=
  readWith (self.create host path options w) (fun response =>
    if !response.hasBody then
      Except.error (Thrown.js
        { isError := true, name := "Error", response := none,
          message := "Response body is not available for streaming." })
    else Except.ok response)

/-- A call of a public method, with what `Date.now()` returns during it when the
method reads the clock. -/
inductive Call where
  | create (path : String) (options : Option Obj)
  | get (path : String) (options : Option Obj) (now1 now2 : Int)
  | post (path : String) (data : JsVal) (options : Option Obj)
  | put (path : String) (data : JsVal) (options : Option Obj)
  | delete (path : String) (options : Option Obj)
  | json (path : String) (options : Option Obj)
  | text (path : String) (options : Option Obj)
  | blob (path : String) (options : Option Obj)
  | arrayBuffer (path : String) (options : Option Obj)
  | stream (path : String) (options : Option Obj)
  | clearCache

/-- Whether the call settled with a value. -/
def Run.succeeded {τ ρ : Type} (run : Run τ ρ) : Bool :=
  match run.result with
  | Except.ok _ => true
  | Except.error _ => false

/-- The state in which a call leaves the client and the world, and whether it
succeeded. -/
structure After (τ : Type) where
  client : SimFetch
  world : τ
  succeeded : Bool

/-- The effect of a call on the client and the world. The bodies of `get` and
`clearCache` are the only ones that assign to a field; the other methods, and
`_fetch`, `_retry` and `createError` under them, read `this` at most, so they
leave the client as it is. -/
def SimFetch.after {τ : Type} (self : SimFetch) (host : Host τ) (call : Call) (w : τ) : After τ :=
  match call with
  | Call.create path options =>
    let run := self.create host path options w
    { client := self, world := run.world, succeeded := run.succeeded }
  | Call.get path options now1 now2 =>
    let done := self.get host path options now1 now2 w
    { client := done.2, world := done.1.world, succeeded := done.1.succeeded }
  | Call.post path data options =>
    let run := self.post host path data options w
    { client := self, world := run.world, succeeded := run.succeeded }
  | Call.put path data options =>
    let run := self.put host path data options w
    { client := self, world := run.world, succeeded := run.succeeded }
  | Call.delete path options =>
    let run := self.delete host path options w
    { client := self, world := run.world, succeeded := run.succeeded }
  | Call.json path options =>
    let run := self.json host path options w
    { client := self, world := run.world, succeeded := run.succeeded }
  | Call.text path options =>
    let run := self.text host path options w
    { client := self, world := run.world, succeeded := run.succeeded }
  | Call.blob path options =>
    let run := self.blob host path options w
    { client := self, world := run.world, succeeded := run.succeeded }
  | Call.arrayBuffer path options =>
    let run := self.arrayBuffer host path options w
    { client := self, world := run.world, succeeded := run.succeeded }
  | Call.stream path options =>
    let run := self.stream host path options w
    { client := self, world := run.world, succeeded := run.succeeded }
  | Call.clearCache => { client := self.clearCache, world := w, succeeded := true }

/-- Whether the call is one of `get` and `clearCache`. -/
def Call.writesCache (call : Call) : Bool :=
  match call with
  | Call.get _ _ _ _ => true
  | Call.clearCache => true
  | _ => false

/-- A sequence of calls, one after the other: the client and the world they leave. -/
def SimFetch.afterAll {τ : Type} (host : Host τ) : List Call → SimFetch → τ → SimFetch × τ
  | [], self, w => (self, w)
  | call :: rest, self, w =>
    SimFetch.afterAll host rest (self.after host call w).client (self.after host call w).world

/-- The body that `fetchWithRetry` hands to `createError` for a response that is
not ok: the JSON value, else the text, else the fallback string. -/
def errorBody (response : Response) : JsVal :=
  match response.jsonBody with
  | some j => j
  | none =>
    match response.textBody with
    | some t => JsVal.str t
    | none => JsVal.str "Response type not known"

/-! ## The reference loop of the retry contract

Written from the words of the specification, to be compared with `_retry`. -/

/-- The world in which invocation number `k + 1` of the attempt function starts. -/
def worldBefore {τ ρ : Type} (fn : τ → Except Thrown ρ × τ) (w : τ) : Nat → τ
  | 0 => w
  | k + 1 => (fn (worldBefore fn w k)).2

/-- The settlement of invocation number `k + 1`. -/
def settlement {τ ρ : Type} (fn : τ → Except Thrown ρ × τ) (w : τ) (k : Nat) : Except Thrown ρ :=
  (fn (worldBefore fn w k)).1

/-- An invocation after which the loop stops whatever is left of the budget: it
succeeded, or it failed with an error that is not retryable. -/
def stopsLoop {ρ : Type} (x : Except Thrown ρ) : Bool :=
  match x with
  | Except.ok _ => true
  | Except.error e => !retryEligible e

/-- The number of the last invocation: the first among invocations `1 .. r` that
succeeds or fails with a non-retryable error, and `r + 1` when there is none. -/
def lastInvocation {τ ρ : Type} (fn : τ → Except Thrown ρ × τ) (r : Nat) (w : τ) : Nat :=
  match (List.range r).find? (fun k => stopsLoop (settlement fn w k)) with
  | some k => k + 1
  | none => r + 1

/-- The reference loop: `fn` is invoked up to the last invocation, whose
settlement is the outcome, and the wait before invocation `k + 1` is
`d * 2 ^ (k - 1)`. -/
def referenceLoop {τ ρ : Type} (fn : τ → Except Thrown ρ × τ) (r d : Nat) (w : τ) : Run τ ρ :=
  let n := lastInvocation fn r w
  { result := settlement fn w (n - 1)
    world := worldBefore fn w n
    calls := n
    waits := (List.range (n - 1)).map (fun i => d * 2 ^ i) }

/-! ## Concrete hosts and clients

Used to evaluate the client on explicit inputs. The world of these hosts is the
number of transport attempts made so far. -/

/-- A stand-in for `JSON.stringify`, exact on `undefined`, `null` and booleans. -/
def stubStringify : JsVal → Option String
  | JsVal.undefined => none
  | JsVal.null => some "null"
  | JsVal.bool true => some "true"
  | JsVal.bool false => some "false"
  | _ => some "[object]"

/-- A transport that completes every attempt with the given status and an
unparseable body. -/
def statusHost (status : Nat) : Host Nat :=
  { fetch := fun _ _ n =>
      (Except.ok { status := status, jsonBody := none, textBody := none, hasBody := false }, n + 1)
    stringify := stubStringify }

/-- A transport that rejects every attempt with the given value. -/
def rejectHost (error : JsError) : Host Nat :=
  { fetch := fun _ _ n => (Except.error error, n + 1)
    stringify := stubStringify }

/-- A transport that completes every attempt with status 200 and, as JSON body,
the number of the attempt. -/
def okHost : Host Nat :=
  { fetch := fun _ _ n =>
      (Except.ok { status := 200, jsonBody := some (JsVal.num n), textBody := none,
                   hasBody := true }, n + 1)
    stringify := stubStringify }

/-- The rejection of a `fetch` aborted through its signal. -/
def abortError : JsError :=
  { isError := true, name := "AbortError", response := none,
    message := "The operation was aborted." }

/-- A rejection that carries a response with status 503. -/
def unavailableError : JsError :=
  { isError := true, name := "Error", response := some (some 503), message := "unavailable" }

/-- The configuration of the usage script `src/src/test.js`, with the given
`retryNumber`. -/
def demoConfig (retryNumber : Nat) : IFetch :=
  { baseUrl := "https://jsonplaceholder.typicode.com", retry := some true,
    retryNumber := some retryNumber }

/-- The client of the usage script `src/src/test.js`, with the given `retryNumber`. -/
def demoClient (retryNumber : Nat) : SimFetch :=
  SimFetch.new { baseUrl := "https://jsonplaceholder.typicode.com", retry := some true,
                 retryNumber := some retryNumber }

/-- The client of the usage script after a first `get('/users')` that was sent at
time 0 over `okHost` and stored its response at time 0. -/
def warmClient : SimFetch :=
  ((demoClient 3).get okHost "/users" none 0 0 0).2

/-- The response `okHost` gives to its first attempt. -/
def firstResponse : Response :=
  { status := 200, jsonBody := some (JsVal.num 0), textBody := none, hasBody := true }

/-- A transport that records the `method` of the options of every attempt it is
handed and completes the attempt with status 200. -/
def recordHost : Host (List (Option JsVal)) :=
  { fetch := fun _ options log =>
      (Except.ok { status := 200, jsonBody := none, textBody := some "", hasBody := true },
        log ++ [Obj.get options "method"])
    stringify := stubStringify }

/-! ## Theorems -/

/-! ### Lemmas on `_retry` -/

theorem retry_zero {τ ρ : Type} (fn : τ → Except Thrown ρ × τ) (d : Nat) (w : τ) :
    SimFetch._retry fn 0 d w =
      { result := (fn w).1, world := (fn w).2, calls := 1, waits := [] } := by
  rcases h : fn w with ⟨res, w1⟩
  cases res <;> simp [SimFetch._retry, h]

theorem retry_succ_ok {τ ρ : Type} (fn : τ → Except Thrown ρ × τ) (r d : Nat) (w w1 : τ) (x : ρ)
    (h : fn w = (Except.ok x, w1)) :
    SimFetch._retry fn (r + 1) d w =
      { result := Except.ok x, world := w1, calls := 1, waits := [] } := by
  simp [SimFetch._retry, h]

theorem retry_succ_final {τ ρ : Type} (fn : τ → Except Thrown ρ × τ) (r d : Nat) (w w1 : τ)
    (e : Thrown) (h : fn w = (Except.error e, w1)) (he : retryEligible e = false) :
    SimFetch._retry fn (r + 1) d w =
      { result := Except.error e, world := w1, calls := 1, waits := [] } := by
  simp [SimFetch._retry, h, he]

theorem retry_succ_again {τ ρ : Type} (fn : τ → Except Thrown ρ × τ) (r d : Nat) (w w1 : τ)
    (e : Thrown) (h : fn w = (Except.error e, w1)) (he : retryEligible e = true) :
    SimFetch._retry fn (r + 1) d w =
      { result := (SimFetch._retry fn r (d * 2) w1).result
        world := (SimFetch._retry fn r (d * 2) w1).world
        calls := (SimFetch._retry fn r (d * 2) w1).calls + 1
        waits := d :: (SimFetch._retry fn r (d * 2) w1).waits } := by
  simp [SimFetch._retry, h, he]

/-- An object built by `createError` never passes the test of `_retry`. -/
theorem retryEligible_sfetch (e : SFetchError) : retryEligible (Thrown.sfetch e) = false := rfl

/-- The test of `_retry` spelled out: the error came from the transport and
carries a response whose status is in the list. -/
theorem retryEligible_iff (error : Thrown) :
    retryEligible error = true ↔
      ∃ e status, error = Thrown.js e ∧ e.response = some (some status) ∧
        status ∈ [408, 500, 502, 503, 504] := by
  cases error with
  | sfetch e => simp [retryEligible]
  | js e =>
    rcases hr : e.response with _ | (_ | status)
    · simp [retryEligible, hr]
    · simp [retryEligible, hr]
    · simp [retryEligible, hr, RETRY_STATUSES]

/-- Every run of `_retry` invokes the attempt function at least once and at
most `retries + 1` times, and awaits one delay less than it makes invocations. -/
theorem retry_calls_bounds {τ ρ : Type} (fn : τ → Except Thrown ρ × τ) (r d : Nat) (w : τ) :
    1 ≤ (SimFetch._retry fn r d w).calls ∧ (SimFetch._retry fn r d w).calls ≤ r + 1 ∧
      (SimFetch._retry fn r d w).waits.length + 1 = (SimFetch._retry fn r d w).calls := by
  induction r generalizing d w with
  | zero => simp [retry_zero]
  | succ r ih =>
    rcases h : fn w with ⟨res, w1⟩
    cases res with
    | ok x => simp [retry_succ_ok fn r d w w1 x h]
    | error e =>
      cases he : retryEligible e with
      | false => simp [retry_succ_final fn r d w w1 e h he]
      | true =>
        rw [retry_succ_again fn r d w w1 e h he]
        have := ih (d * 2) w1
        simp only [List.length_cons]
        omega

/-! ### Lemmas on the reference loop -/

theorem worldBefore_succ {τ ρ : Type} (fn : τ → Except Thrown ρ × τ) (w : τ) (k : Nat) :
    worldBefore fn w (k + 1) = worldBefore fn (fn w).2 k := by
  induction k with
  | zero => rfl
  | succ k ih =>
    show (fn (worldBefore fn w (k + 1))).2 = (fn (worldBefore fn (fn w).2 k)).2
    rw [ih]

theorem settlement_succ {τ ρ : Type} (fn : τ → Except Thrown ρ × τ) (w : τ) (k : Nat) :
    settlement fn w (k + 1) = settlement fn (fn w).2 k := by
  unfold settlement
  rw [worldBefore_succ]

theorem lastInvocation_zero {τ ρ : Type} (fn : τ → Except Thrown ρ × τ) (w : τ) :
    lastInvocation fn 0 w = 1 := rfl

theorem lastInvocation_succ {τ ρ : Type} (fn : τ → Except Thrown ρ × τ) (r : Nat) (w : τ) :
    lastInvocation fn (r + 1) w =
      if stopsLoop (fn w).1 then 1 else lastInvocation fn r (fn w).2 + 1 := by
  unfold lastInvocation
  rw [List.range_succ_eq_map, List.find?_cons]
  have h0 : settlement fn w 0 = (fn w).1 := rfl
  rw [h0]
  cases hs : stopsLoop (fn w).1 with
  | true => simp
  | false =>
    simp only [List.find?_map, Bool.false_eq_true, if_false]
    have hf : ((fun k => stopsLoop (settlement fn w k)) ∘ Nat.succ) =
        (fun k => stopsLoop (settlement fn (fn w).2 k)) := by
      funext k
      simp [Function.comp, settlement_succ]
    rw [hf]
    cases List.find? (fun k => stopsLoop (settlement fn (fn w).2 k)) (List.range r) <;> simp

theorem lastInvocation_pos {τ ρ : Type} (fn : τ → Except Thrown ρ × τ) (r : Nat) (w : τ) :
    1 ≤ lastInvocation fn r w := by
  unfold lastInvocation
  split <;> omega

theorem backoff_waits (d m : Nat) :
    (List.range (m + 1)).map (fun i => d * 2 ^ i) =
      d :: (List.range m).map (fun i => d * 2 * 2 ^ i) := by
  rw [List.range_succ_eq_map, List.map_cons, List.map_map]
  simp [Function.comp, pow_succ, Nat.mul_assoc, Nat.mul_comm]

/-! ### The claims -/

/-- C1 (the code departs from the claim): with `retryNumber = 3` and a transport that
completes every attempt with status 503, `create` invokes the transport once,
awaits no delay and rejects with the object built by `createError`; the claim
asks for four invocations separated by waits of 1000, 2000 and 4000 ms. -/
theorem create_status_503_attempts_once :
    (demoClient 3).retryNum = 3 ∧
    ((demoClient 3).create (statusHost 503) "/users" none 0).calls = 1 ∧
    ((demoClient 3).create (statusHost 503) "/users" none 0).world = 1 ∧
    ((demoClient 3).create (statusHost 503) "/users" none 0).waits = [] ∧
    ((demoClient 3).create (statusHost 503) "/users" none 0).result =
      Except.error (Thrown.sfetch (createError 503 (JsVal.str "Response type not known"))) := by
  refine ⟨by decide, by decide, by decide, by decide, rfl⟩

/-- With a `fetch` whose rejections carry no `response`, an attempt never fails
with an error that passes the test of `_retry`. -/
theorem fetchWithRetry_error_not_eligible {τ : Type} (host : Host τ) (url : String)
    (options : Obj) (w w1 : τ) (error : Thrown)
    (hfetch : ∀ u o w0 e w2, host.fetch u o w0 = (Except.error e, w2) → e.response = none)
    (h : SimFetch.fetchWithRetry host url options w = (Except.error error, w1)) :
    retryEligible error = false := by
  rcases hf : host.fetch url options w with ⟨res, w2⟩
  cases res with
  | ok response =>
    cases hok : response.ok with
    | true => simp [SimFetch.fetchWithRetry, hf, hok] at h
    | false =>
      simp only [SimFetch.fetchWithRetry, hf, hok] at h
      have he := (Prod.mk.inj h).1
      injection he with he
      rw [← he]
      rfl
  | error e =>
    have hnone : e.response = none := hfetch url options w e w2 hf
    cases hab : (e.isError && e.name == "AbortError") with
    | true =>
      simp only [SimFetch.fetchWithRetry, hf, hab] at h
      have he := (Prod.mk.inj h).1
      injection he with he
      rw [← he]
      rfl
    | false =>
      simp only [SimFetch.fetchWithRetry, hf, hab] at h
      have he := (Prod.mk.inj h).1
      injection he with he
      rw [← he]
      simp [retryEligible, hnone]

/-- With a `fetch` whose rejections carry no `response`, `create` makes exactly
one transport attempt and awaits no delay. -/
theorem create_calls_eq_one {τ : Type} (self : SimFetch) (host : Host τ) (path : String)
    (options : Option Obj) (w : τ)
    (hfetch : ∀ u o w0 e w2, host.fetch u o w0 = (Except.error e, w2) → e.response = none) :
    (self.create host path options w).calls = 1 ∧ (self.create host path options w).waits = [] := by
  simp only [SimFetch.create, SimFetch._fetch, MAX_RETRIES]
  rcases hf : SimFetch.fetchWithRetry host (self.baseUrl ++ path)
      (Obj.assign (Obj.assign [] self.options) (spreadArg options)) w with ⟨res, w1⟩
  cases res with
  | ok x => simp [retry_succ_ok _ 4 RETRY_DELAY w w1 x hf]
  | error e =>
    have he := fetchWithRetry_error_not_eligible host _ _ w w1 e hfetch hf
    simp [retry_succ_final _ 4 RETRY_DELAY w w1 e hf he]

/-- C2: for every configuration with `retryNumber = N` and every behaviour of the
global `fetch`, whose rejections (a `TypeError`, or the `AbortError` of the
controller) carry no `response`, the number of transport attempts of one call of
`create` is at least 0 and at most `N + 1`; it is also at most `retryNum + 1`
for the value the constructor keeps, which covers an absent `retryNumber`. -/
theorem create_attempts_bounded {τ : Type} (config : IFetch) (host : Host τ)
    (path : String) (options : Option Obj) (w : τ)
    (hfetch : ∀ u o w0 e w2, host.fetch u o w0 = (Except.error e, w2) → e.response = none) :
    0 ≤ ((SimFetch.new config).create host path options w).calls ∧
    (∀ N : Nat, config.retryNumber = some N →
      ((SimFetch.new config).create host path options w).calls ≤ N + 1) ∧
    ((SimFetch.new config).create host path options w).calls ≤
      (SimFetch.new config).retryNum + 1 := by
  have h1 := (create_calls_eq_one (SimFetch.new config) host path options w hfetch).1
  rw [h1]
  refine ⟨by omega, ?_, by omega⟩
  intro N _
  omega

theorem create_attempts_bounded_witness :
    0 ≤ ((SimFetch.new (demoConfig 3)).create (rejectHost abortError) "/users" none 0).calls ∧
    ((SimFetch.new (demoConfig 3)).create (rejectHost abortError) "/users" none 0).calls ≤ 3 + 1 :=
  ⟨(create_attempts_bounded (demoConfig 3) (rejectHost abortError) "/users" none 0
      (by
        intro u o w0 e w2 h
        have he : abortError = e := by
          have h1 := (Prod.mk.inj h).1
          injection h1
        rw [← he]
        rfl)).1,
   (create_attempts_bounded (demoConfig 3) (rejectHost abortError) "/users" none 0
      (by
        intro u o w0 e w2 h
        have he : abortError = e := by
          have h1 := (Prod.mk.inj h).1
          injection h1
        rw [← he]
        rfl)).2.1 3 rfl⟩

/-- The budget of `_retry` under `_fetch` is `MAX_RETRIES` whatever `retryNum` is:
under a substitute transport whose every rejection carries a response with status
503, which the global `fetch` never produces, a client built with
`retryNumber = 1` makes six attempts. -/
theorem create_ignores_retryNumber :
    (demoClient 1).retryNum = 1 ∧
    ((demoClient 1).create (rejectHost unavailableError) "/users" none 0).calls = 6 ∧
    ((demoClient 1).create (rejectHost unavailableError) "/users" none 0).world = 6 ∧
    ((demoClient 1).create (rejectHost unavailableError) "/users" none 0).waits =
      [1000, 2000, 4000, 8000, 16000] := by
  refine ⟨by decide, by decide, by decide, by decide⟩

/-- C3: `_retry(fn, r, d)` is the reference loop. It invokes `fn` up to the first
invocation that succeeds, fails with a non-retryable error, or has number
`r + 1`; its outcome is the settlement of that invocation, the world is the one
that invocation left, and the wait before invocation `k + 1` is `d * 2 ^ (k - 1)`. -/
theorem retry_eq_referenceLoop {τ ρ : Type} (fn : τ → Except Thrown ρ × τ) (r d : Nat) (w : τ) :
    SimFetch._retry fn r d w = referenceLoop fn r d w := by
  induction r generalizing d w with
  | zero =>
    rw [retry_zero]
    simp [referenceLoop, lastInvocation_zero, settlement, worldBefore]
  | succ r ih =>
    rcases h : fn w with ⟨res, w1⟩
    have hw1 : (fn w).2 = w1 := by rw [h]
    have hres : (fn w).1 = res := by rw [h]
    cases res with
    | ok x =>
      rw [retry_succ_ok fn r d w w1 x h]
      have hn : lastInvocation fn (r + 1) w = 1 := by
        rw [lastInvocation_succ, hres]; simp [stopsLoop]
      simp [referenceLoop, hn, settlement, worldBefore, h]
    | error e =>
      cases he : retryEligible e with
      | false =>
        rw [retry_succ_final fn r d w w1 e h he]
        have hn : lastInvocation fn (r + 1) w = 1 := by
          rw [lastInvocation_succ, hres]; simp [stopsLoop, he]
        simp [referenceLoop, hn, settlement, worldBefore, h]
      | true =>
        rw [retry_succ_again fn r d w w1 e h he, ih (d * 2) w1]
        have hn : lastInvocation fn (r + 1) w = lastInvocation fn r w1 + 1 := by
          rw [lastInvocation_succ, hres, hw1]; simp [stopsLoop, he]
        obtain ⟨m, hm⟩ : ∃ m, lastInvocation fn r w1 = m + 1 :=
          ⟨lastInvocation fn r w1 - 1, by have := lastInvocation_pos fn r w1; omega⟩
        simp only [referenceLoop, hn, hm, Nat.add_sub_cancel]
        rw [settlement_succ fn w m, worldBefore_succ fn w (m + 1), hw1, backoff_waits]

/-- C4: when the first invocation of the attempt function fails with an error
that does not carry a response with a status in 408, 500, 502, 503, 504 (an
object built by `createError`, or a transport error with another status or with
none), `_retry` invokes the function once, awaits no delay and fails with that
same error, whatever the number of retries left. -/
theorem retry_rethrows_unclassified {τ ρ : Type} (fn : τ → Except Thrown ρ × τ) (r d : Nat)
    (w w1 : τ) (error : Thrown) (h : fn w = (Except.error error, w1))
    (he : ∀ e status, error = Thrown.js e → e.response = some (some status) →
      status ∉ [408, 500, 502, 503, 504]) :
    SimFetch._retry fn r d w =
      { result := Except.error error, world := w1, calls := 1, waits := [] } := by
  have hne : retryEligible error = false := by
    cases hb : retryEligible error with
    | false => rfl
    | true =>
      obtain ⟨e, status, h1, h2, h3⟩ := (retryEligible_iff error).1 hb
      exact absurd h3 (he e status h1 h2)
  cases r with
  | zero => rw [retry_zero, h]
  | succ r => exact retry_succ_final fn r d w w1 error h hne

theorem retry_rethrows_unclassified_witness :
    SimFetch._retry (SimFetch.fetchWithRetry (statusHost 404) "https://api.example.com/users" [])
        5 1000 0 =
      { result := Except.error (Thrown.sfetch
          (createError 404 (JsVal.str "Response type not known")))
        world := 1, calls := 1, waits := [] } :=
  retry_rethrows_unclassified _ 5 1000 0 1 _ rfl (by intro e status h; cases h)

/-! ### Lemmas on the cache and `get` -/

theorem Response.clone_eq (r : Response) : r.clone = r := rfl

theorem create_calls_pos {τ : Type} (self : SimFetch) (host : Host τ) (path : String)
    (options : Option Obj) (w : τ) : 1 ≤ (self.create host path options w).calls :=
  (retry_calls_bounds _ MAX_RETRIES RETRY_DELAY w).1

/-- A cache hit: the entry exists and is younger than the TTL. -/
theorem get_fresh {τ : Type} (self : SimFetch) (host : Host τ) (path : String)
    (options : Option Obj) (now1 now2 : Int) (w : τ) (entry : CacheEntry)
    (h : self.cache (self.cacheKey host path options) = some entry)
    (hf : now1 - entry.timestamp < CACHE_TTL) :
    self.get host path options now1 now2 w =
      ({ result := Except.ok entry.response.clone, world := w, calls := 0, waits := [] }, self) := by
  simp only [SimFetch.get, h]
  rw [if_pos hf]

/-- A cache miss: no entry, or an entry as old as the TTL or older. -/
theorem get_miss {τ : Type} (self : SimFetch) (host : Host τ) (path : String)
    (options : Option Obj) (now1 now2 : Int) (w : τ)
    (hm : ∀ entry, self.cache (self.cacheKey host path options) = some entry →
      ¬ (now1 - entry.timestamp < CACHE_TTL)) :
    (self.get host path options now1 now2 w).1 = self.create host path (some (getInit options)) w ∧
    (∀ response, (self.create host path (some (getInit options)) w).result = Except.ok response →
      (self.get host path options now1 now2 w).2 =
        self.store (self.cacheKey host path options) response now2) ∧
    (∀ e, (self.create host path (some (getInit options)) w).result = Except.error e →
      (self.get host path options now1 now2 w).2 = self) := by
  have key : self.get host path options now1 now2 w =
      (match (self.create host path (some (getInit options)) w).result with
        | Except.ok response =>
          (self.create host path (some (getInit options)) w,
            self.store (self.cacheKey host path options) response now2)
        | Except.error _ => (self.create host path (some (getInit options)) w, self)) := by
    cases hc : self.cache (self.cacheKey host path options) with
    | none => simp only [SimFetch.get, hc]
    | some entry =>
      simp only [SimFetch.get, hc]
      rw [if_neg (hm entry hc)]
  rw [key]
  cases hres : (self.create host path (some (getInit options)) w).result with
  | ok response => simp
  | error e => simp

theorem get_hit_calls {τ : Type} (self : SimFetch) (host : Host τ) (path : String)
    (options : Option Obj) (now1 now2 : Int) (w : τ) (entry : CacheEntry)
    (h : self.cache (self.cacheKey host path options) = some entry) :
    (self.get host path options now1 now2 w).1.calls = 0 ↔ now1 - entry.timestamp < CACHE_TTL := by
  constructor
  · intro h0
    by_contra hn
    have hm : ∀ e, self.cache (self.cacheKey host path options) = some e →
        ¬ (now1 - e.timestamp < CACHE_TTL) := by
      intro e he
      rw [h] at he
      cases he
      exact hn
    have h1 := (get_miss self host path options now1 now2 w hm).1
    have h2 := create_calls_pos self host path (some (getInit options)) w
    rw [h1] at h0
    omega
  · intro hf
    rw [get_fresh self host path options now1 now2 w entry h hf]

/-! ### The claims on the cache -/

/-- C5 (as stated, refuted): a `get` that succeeds at time 10 because it hits the
cache, followed by the same `get` at time 20, makes no transport attempt at all
in the two calls, not exactly one. -/
theorem get_twice_counterexample :
    (∃ response, (warmClient.get okHost "/users" none 10 10 1).1.result = Except.ok response) ∧
    ((20 : Int) - 10 < 60000) ∧
    (warmClient.get okHost "/users" none 10 10 1).1.calls +
      ((warmClient.get okHost "/users" none 10 10 1).2.get okHost "/users" none 20 20
        (warmClient.get okHost "/users" none 10 10 1).1.world).1.calls = 0 :=
  ⟨⟨_, rfl⟩, by decide, by decide⟩

/-- C5 (amended): let a `get` that finds no fresh entry for its key succeed with
`response`, its entry being stored at time `t0`, and let the same `get` be called
at a time `t1` with `t1 - t0 < 60000`, on a cache that still holds that entry
(`cache2`) and in any world. Then the second call makes no transport attempt and
leaves the world alone, its response equals the first one, and the two calls
together make exactly one transport attempt whenever the first attempt of the
first call succeeded. -/
theorem get_again_within_ttl {τ : Type} (self : SimFetch) (host : Host τ) (path : String)
    (options : Option Obj) (now1 t0 t1 now3 : Int) (w w2 : τ) (response : Response)
    (cache2 : String → Option CacheEntry)
    (hmiss : ∀ entry, self.cache (self.cacheKey host path options) = some entry →
      ¬ (now1 - entry.timestamp < CACHE_TTL))
    (hok : (self.get host path options now1 t0 w).1.result = Except.ok response)
    (hkeep : cache2 (self.cacheKey host path options) =
      (self.get host path options now1 t0 w).2.cache (self.cacheKey host path options))
    (ht : t1 - t0 < 60000) :
    (SimFetch.get { (self.get host path options now1 t0 w).2 with cache := cache2 }
        host path options t1 now3 w2).1 =
      { result := Except.ok response, world := w2, calls := 0, waits := [] } ∧
    (∀ x, (SimFetch.fetchWithRetry host (self.baseUrl ++ path)
          (Obj.assign (Obj.assign [] self.options) (getInit options)) w).1 = Except.ok x →
      (self.get host path options now1 t0 w).1.calls +
        (SimFetch.get { (self.get host path options now1 t0 w).2 with cache := cache2 }
          host path options t1 now3 w2).1.calls = 1) := by
  obtain ⟨h1, h2, -⟩ := get_miss self host path options now1 t0 w hmiss
  rw [h1] at hok
  have hst := h2 response hok
  have hentry : cache2 (self.cacheKey host path options) =
      some { response := response.clone, timestamp := t0 } := by
    rw [hkeep, hst]
    simp [SimFetch.store, cacheSet]
  have hsecond := get_fresh
    { (self.get host path options now1 t0 w).2 with cache := cache2 } host path options
    t1 now3 w2 { response := response.clone, timestamp := t0 }
    (by rw [hst]; exact hentry) (by simpa [CACHE_TTL] using ht)
  refine ⟨by rw [hsecond]; rfl, ?_⟩
  intro x hx
  rw [hsecond, h1]
  rcases hfn : SimFetch.fetchWithRetry host (self.baseUrl ++ path)
      (Obj.assign (Obj.assign [] self.options) (getInit options)) w with ⟨res, w1⟩
  rw [hfn] at hx
  simp only at hx
  subst hx
  have := retry_succ_ok _ 4 RETRY_DELAY w w1 x hfn
  simp only [SimFetch.create, SimFetch._fetch, spreadArg, MAX_RETRIES]
  rw [this]

theorem get_again_within_ttl_witness :
    (SimFetch.get { ((demoClient 3).get okHost "/users" none 0 5 0).2 with
        cache := ((demoClient 3).get okHost "/users" none 0 5 0).2.cache }
        okHost "/users" none 10 10 1).1 =
      { result := Except.ok firstResponse, world := 1, calls := 0, waits := [] } :=
  (get_again_within_ttl (demoClient 3) okHost "/users" none 0 5 10 10 0 1 firstResponse
    ((demoClient 3).get okHost "/users" none 0 5 0).2.cache
    (by intro entry h; cases h) rfl rfl (by decide)).1

/-- C6: for a key that has an entry stored at `entry.timestamp`, `get` at time
`now1` uses the entry (no transport attempt, the stored response is returned and
nothing changes) if and only if `now1 - entry.timestamp < 60000`. From 60000 on,
`get` is the request itself, which makes at least one transport attempt, and when
it succeeds the entry of the key becomes the new response with the timestamp read
at that moment (`now2`), the other keys keeping theirs. -/
theorem get_uses_entry_iff_fresh {τ : Type} (self : SimFetch) (host : Host τ) (path : String)
    (options : Option Obj) (now1 now2 : Int) (w : τ) (entry : CacheEntry)
    (h : self.cache (self.cacheKey host path options) = some entry) :
    ((self.get host path options now1 now2 w).1.calls = 0 ↔ now1 - entry.timestamp < 60000) ∧
    (now1 - entry.timestamp < 60000 →
      self.get host path options now1 now2 w =
        ({ result := Except.ok entry.response, world := w, calls := 0, waits := [] }, self)) ∧
    (60000 ≤ now1 - entry.timestamp →
      (self.get host path options now1 now2 w).1 =
        self.create host path (some (getInit options)) w ∧
      1 ≤ (self.get host path options now1 now2 w).1.calls ∧
      ∀ response, (self.get host path options now1 now2 w).1.result = Except.ok response →
        (self.get host path options now1 now2 w).2.cache (self.cacheKey host path options) =
          some { response := response, timestamp := now2 } ∧
        ∀ k, k ≠ self.cacheKey host path options →
          (self.get host path options now1 now2 w).2.cache k = self.cache k) := by
  refine ⟨get_hit_calls self host path options now1 now2 w entry h, ?_, ?_⟩
  · intro hf
    exact get_fresh self host path options now1 now2 w entry h hf
  · intro hs
    have hm : ∀ e, self.cache (self.cacheKey host path options) = some e →
        ¬ (now1 - e.timestamp < CACHE_TTL) := by
      intro e he
      rw [h] at he
      cases he
      simp only [CACHE_TTL]
      omega
    obtain ⟨h1, h2, -⟩ := get_miss self host path options now1 now2 w hm
    refine ⟨h1, ?_, ?_⟩
    · rw [h1]
      exact create_calls_pos self host path (some (getInit options)) w
    · intro response hr
      rw [h1] at hr
      rw [h2 response hr]
      refine ⟨by simp [SimFetch.store, cacheSet, Response.clone_eq], ?_⟩
      intro k hk
      simp [SimFetch.store, cacheSet, hk]

theorem get_uses_entry_iff_fresh_witness :
    ((warmClient.get okHost "/users" none 60000 60001 1).1.calls = 0 ↔
      (60000 : Int) - 0 < 60000) ∧
    (warmClient.get okHost "/users" none 60000 60001 1).1.calls = 1 :=
  ⟨(get_uses_entry_iff_fresh warmClient okHost "/users" none 60000 60001 1
      { response := firstResponse, timestamp := 0 } rfl).1, by decide⟩

/-- C7: after `clearCache()` the cache has no entry for any key, whatever it held;
so the next `get`, for every path, options and time, is the request itself and
makes at least one transport attempt. -/
theorem clearCache_then_get {τ : Type} (self : SimFetch) (host : Host τ) (path : String)
    (options : Option Obj) (now1 now2 : Int) (w : τ) :
    (∀ k, self.clearCache.cache k = none) ∧
    (self.clearCache.get host path options now1 now2 w).1 =
      self.clearCache.create host path (some (getInit options)) w ∧
    1 ≤ (self.clearCache.get host path options now1 now2 w).1.calls := by
  have hm : ∀ e, self.clearCache.cache (self.clearCache.cacheKey host path options) = some e →
      ¬ (now1 - e.timestamp < CACHE_TTL) := by
    intro e he
    simp [SimFetch.clearCache] at he
  obtain ⟨h1, -, -⟩ := get_miss self.clearCache host path options now1 now2 w hm
  refine ⟨fun k => rfl, h1, ?_⟩
  rw [h1]
  exact create_calls_pos self.clearCache host path (some (getInit options)) w

/-! ### The claims on errors -/

/-- C8 (as stated, refuted): when the transport rejects with an `AbortError`, the
failure of the attempt is an object built by `createError` whose `error` is the
fixed timeout text and whose `hint` is not that text. -/
theorem timeout_hint_counterexample :
    ∃ e, (SimFetch.fetchWithRetry (rejectHost abortError) "https://api.example.com/users" [] 0).1 =
        Except.error (Thrown.sfetch e) ∧
      e.error = JsVal.str "Request timed out. Please check your network connection." ∧
      e.hint ≠ "Request timed out. Please check your network connection." :=
  ⟨_, rfl, rfl, by decide⟩

/-- C8 (amended): when the transport rejects an attempt with an `Error` named
`AbortError`, the attempt fails with `createError(408, text)`, that is the object
whose `error` is the fixed timeout text and whose `hint` and `learnMore` are the
generic pair, 408 having no entry in the table. -/
theorem fetchWithRetry_abort {τ : Type} (host : Host τ) (url : String) (options : Obj)
    (w w1 : τ) (error : JsError) (h : host.fetch url options w = (Except.error error, w1))
    (hi : error.isError = true) (hn : error.name = "AbortError") :
    SimFetch.fetchWithRetry host url options w =
      (Except.error (Thrown.sfetch
        { error := JsVal.str "Request timed out. Please check your network connection."
          hint := "An unexpected error occurred. Please try again later."
          learnMore := "https://developer.mozilla.org/en-US/docs/Web/HTTP/Status" }), w1) := by
  simp only [SimFetch.fetchWithRetry, h, hi, hn]
  rfl

theorem fetchWithRetry_abort_witness :
    SimFetch.fetchWithRetry (rejectHost abortError) "https://api.example.com/users" [] 0 =
      (Except.error (Thrown.sfetch
        { error := JsVal.str "Request timed out. Please check your network connection."
          hint := "An unexpected error occurred. Please try again later."
          learnMore := "https://developer.mozilla.org/en-US/docs/Web/HTTP/Status" }), 1) :=
  fetchWithRetry_abort (rejectHost abortError) "https://api.example.com/users" [] 0 1 abortError
    rfl rfl rfl

/-- C9: `createError(status, body)` keeps `body` as its `error`, and its `hint` and
`learnMore` are the entry of the table for the statuses 400, 401, 403, 404 and
500 and the generic pair for every other status. -/
theorem createError_table (status : Nat) (body : JsVal) :
    (createError status body).error = body ∧
    ((createError status body).hint, (createError status body).learnMore) =
      (if status = 400 then
        ("Check your request parameters or body. You might have sent invalid data.",
          "https://developer.mozilla.org/en-US/docs/Web/HTTP/Status/400")
      else if status = 401 then
        ("You are not authorized to access this resource. Please check your credentials.",
          "https://developer.mozilla.org/en-US/docs/Web/HTTP/Status/401")
      else if status = 403 then
        ("You do not have permission to access this resource. Contact the administrator if you believe this is a mistake.",
          "https://developer.mozilla.org/en-US/docs/Web/HTTP/Status/403")
      else if status = 404 then
        ("The resource you are looking for does not exist. Double-check the URL or resource ID.",
          "https://developer.mozilla.org/en-US/docs/Web/HTTP/Status/404")
      else if status = 500 then
        ("Something went wrong on the server. Please try again later or contact support.",
          "https://developer.mozilla.org/en-US/docs/Web/HTTP/Status/500")
      else
        ("An unexpected error occurred. Please try again later.",
          "https://developer.mozilla.org/en-US/docs/Web/HTTP/Status")) := by
  by_cases h1 : status = 400
  · subst h1; exact ⟨rfl, rfl⟩
  by_cases h2 : status = 401
  · subst h2; exact ⟨rfl, rfl⟩
  by_cases h3 : status = 403
  · subst h3; exact ⟨rfl, rfl⟩
  by_cases h4 : status = 404
  · subst h4; exact ⟨rfl, rfl⟩
  by_cases h5 : status = 500
  · subst h5; exact ⟨rfl, rfl⟩
  have hnone : statusMessage status STATUS_CODE_MESSAGES = none := by
    simp [statusMessage, STATUS_CODE_MESSAGES, Ne.symm h1, Ne.symm h2, Ne.symm h3, Ne.symm h4,
      Ne.symm h5]
  simp [createError, hnone, defaultMessage, h1, h2, h3, h4, h5]

/-! ### The claim on the verb methods -/

theorem Obj.get_set (o : Obj) (k k1 : String) (v : JsVal) :
    Obj.get (Obj.set o k v) k1 = if k = k1 then some v else Obj.get o k1 := by
  induction o with
  | nil => simp [Obj.set, Obj.get]
  | cons p rest ih =>
    obtain ⟨k2, v2⟩ := p
    by_cases h2 : k2 = k
    · subst h2
      by_cases h1 : k2 = k1 <;> simp [Obj.set, Obj.get, h1]
    · by_cases h1 : k2 = k1
      · subst h1
        have hk : ¬ k = k2 := fun h => h2 h.symm
        simp [Obj.set, Obj.get, h2, hk]
      · simp [Obj.set, Obj.get, h2, h1, ih]

/-- A property that the source of a spread does not have keeps the value it has
in the target. -/
theorem Obj.get_assign_of_absent (source target : Obj) (k : String)
    (h : Obj.get source k = none) : Obj.get (Obj.assign target source) k = Obj.get target k := by
  induction source generalizing target with
  | nil => rfl
  | cons p rest ih =>
    obtain ⟨k2, v2⟩ := p
    have hk : ¬ k2 = k := by
      intro hk
      simp [Obj.get, hk] at h
    have hrest : Obj.get rest k = none := by
      simpa [Obj.get, hk] using h
    show Obj.get (Obj.assign (Obj.set target k2 v2) rest) k = Obj.get target k
    rw [ih (Obj.set target k2 v2) hrest, Obj.get_set, if_neg hk]

/-- C10 (as stated, refuted): `post` called with options that have a `method`
field hands that method to `create`, not POST; the transport is then handed
`GET`. -/
theorem post_method_counterexample :
    Obj.get (postInit recordHost JsVal.null (some [("method", JsVal.str "GET")])) "method" =
      some (JsVal.str "GET") ∧
    Obj.get (postInit recordHost JsVal.null (some [("method", JsVal.str "GET")])) "method" ≠
      some (JsVal.str "POST") ∧
    ((demoClient 3).post recordHost "/users" JsVal.null
      (some [("method", JsVal.str "GET")]) []).world = [some (JsVal.str "GET")] := by
  refine ⟨rfl, ?_, rfl⟩
  have h : Obj.get (postInit recordHost JsVal.null (some [("method", JsVal.str "GET")]))
      "method" = some (JsVal.str "GET") := rfl
  rw [h]
  simp

/-- C10 (amended): for every path, data and options without a `method` field,
`post`, `put` and `delete` are `create` on options whose `method` is POST, PUT
and DELETE, and `get` on a cache miss is `create` on options whose `method` is
GET; when the options have no `body` field either, the `body` of `post` and
`put` is the JSON encoding of the data. -/
theorem verb_options_method {τ : Type} (self : SimFetch) (host : Host τ) (path : String)
    (data : JsVal) (options : Option Obj) (now1 now2 : Int) (w : τ)
    (hm : Obj.get (spreadArg options) "method" = none) :
    (self.post host path data options w =
        self.create host path (some (postInit host data options)) w ∧
      Obj.get (postInit host data options) "method" = some (JsVal.str "POST")) ∧
    (self.put host path data options w =
        self.create host path (some (putInit host data options)) w ∧
      Obj.get (putInit host data options) "method" = some (JsVal.str "PUT")) ∧
    (self.delete host path options w = self.create host path (some (deleteInit options)) w ∧
      Obj.get (deleteInit options) "method" = some (JsVal.str "DELETE")) ∧
    (((∀ entry, self.cache (self.cacheKey host path options) = some entry →
          ¬ (now1 - entry.timestamp < CACHE_TTL)) →
        (self.get host path options now1 now2 w).1 =
          self.create host path (some (getInit options)) w) ∧
      Obj.get (getInit options) "method" = some (JsVal.str "GET")) ∧
    (Obj.get (spreadArg options) "body" = none →
      Obj.get (postInit host data options) "body" = some (stringifyVal host data) ∧
      Obj.get (putInit host data options) "body" = some (stringifyVal host data)) := by
  refine ⟨⟨rfl, ?_⟩, ⟨rfl, ?_⟩, ⟨rfl, ?_⟩, ⟨?_, ?_⟩, ?_⟩
  · rw [postInit, Obj.get_assign_of_absent _ _ _ hm]; rfl
  · rw [putInit, Obj.get_assign_of_absent _ _ _ hm]; rfl
  · rw [deleteInit, Obj.get_assign_of_absent _ _ _ hm]; rfl
  · intro hmiss
    exact (get_miss self host path options now1 now2 w hmiss).1
  · rw [getInit, Obj.get_assign_of_absent _ _ _ hm]; rfl
  · intro hb
    constructor
    · rw [postInit, Obj.get_assign_of_absent _ _ _ hb]; rfl
    · rw [putInit, Obj.get_assign_of_absent _ _ _ hb]; rfl

theorem verb_options_method_witness :
    Obj.get (postInit recordHost JsVal.null (some [("headers", JsVal.obj [])])) "method" =
      some (JsVal.str "POST") ∧
    Obj.get (postInit recordHost JsVal.null (some [("headers", JsVal.obj [])])) "body" =
      some (JsVal.str "null") :=
  ⟨(verb_options_method (demoClient 3) recordHost "/users" JsVal.null
      (some [("headers", JsVal.obj [])]) 0 0 [] rfl).1.2,
   ((verb_options_method (demoClient 3) recordHost "/users" JsVal.null
      (some [("headers", JsVal.obj [])]) 0 0 [] rfl).2.2.2.2 rfl).1⟩

/-! ### The frame of the cache -/

theorem after_client_of_not_writesCache {τ : Type} (self : SimFetch) (host : Host τ)
    (call : Call) (w : τ) (h : call.writesCache = false) :
    (self.after host call w).client = self := by
  cases call <;> first | rfl | simp [Call.writesCache] at h

theorem afterAll_client_of_not_writesCache {τ : Type} (host : Host τ) (calls : List Call)
    (self : SimFetch) (w : τ) (h : ∀ call ∈ calls, Call.writesCache call = false) :
    (SimFetch.afterAll host calls self w).1 = self := by
  induction calls generalizing self w with
  | nil => rfl
  | cons call rest ih =>
    have h1 : call.writesCache = false := h call (List.mem_cons_self call rest)
    have h2 : ∀ c ∈ rest, Call.writesCache c = false :=
      fun c hc => h c (List.mem_cons_of_mem call hc)
    show (SimFetch.afterAll host rest (self.after host call w).client
      (self.after host call w).world).1 = self
    rw [after_client_of_not_writesCache self host call w h1]
    exact ih self (self.after host call w).world h2

/-- C11: a call of `create`, `post`, `put`, `delete`, `json`, `text`, `blob`,
`arrayBuffer` or `stream` (any call that is not `get` or `clearCache`) leaves the
cache as it was, for every cache, argument, transport and world, hence whether it
succeeds or fails; and so does every sequence of such calls. -/
theorem cache_kept_by_other_methods {τ : Type} (self : SimFetch) (host : Host τ) (w : τ) :
    (∀ call : Call, call.writesCache = false →
      (self.after host call w).client.cache = self.cache) ∧
    (∀ calls : List Call, (∀ call ∈ calls, Call.writesCache call = false) →
      (SimFetch.afterAll host calls self w).1.cache = self.cache) := by
  constructor
  · intro call h
    rw [after_client_of_not_writesCache self host call w h]
  · intro calls h
    rw [afterAll_client_of_not_writesCache host calls self w h]

theorem cache_kept_by_other_methods_witness :
    (warmClient.after (statusHost 503) (Call.json "/users" none) 1).client.cache =
      warmClient.cache ∧
    (warmClient.after (statusHost 503) (Call.json "/users" none) 1).succeeded = false ∧
    (SimFetch.afterAll okHost
      [Call.post "/users" JsVal.null none, Call.stream "/users" none,
       Call.delete "/users/1" none] warmClient 1).1.cache = warmClient.cache :=
  ⟨(cache_kept_by_other_methods warmClient (statusHost 503) 1).1 (Call.json "/users" none) rfl,
   by decide,
   (cache_kept_by_other_methods warmClient okHost 1).2
     [Call.post "/users" JsVal.null none, Call.stream "/users" none,
      Call.delete "/users/1" none] (by decide)⟩

/-! ### Errors built by `createError` are never retried -/

theorem fetchWithRetry_not_ok {τ : Type} (host : Host τ) (url : String) (options : Obj)
    (w w1 : τ) (response : Response) (h : host.fetch url options w = (Except.ok response, w1))
    (hn : response.ok = false) :
    SimFetch.fetchWithRetry host url options w =
      (Except.error (Thrown.sfetch (createError response.status (errorBody response))), w1) := by
  simp only [SimFetch.fetchWithRetry, h, hn, errorBody]
  rfl

theorem fetchWithRetry_aborted {τ : Type} (host : Host τ) (url : String) (options : Obj)
    (w w1 : τ) (error : JsError) (h : host.fetch url options w = (Except.error error, w1))
    (hi : error.isError = true) (hn : error.name = "AbortError") :
    SimFetch.fetchWithRetry host url options w =
      (Except.error (Thrown.sfetch (createError 408
        (JsVal.str "Request timed out. Please check your network connection."))), w1) := by
  simp only [SimFetch.fetchWithRetry, h, hi, hn]
  rfl

/-- C12: an object built by `createError`, for every status and body, fails the
eligibility test of `_retry`. So when the transport completes with a status that
is not ok, or rejects with an `AbortError`, `_fetch` invokes the transport once,
awaits no delay and fails with the object `createError` built. -/
theorem createError_never_retried {τ : Type} (self : SimFetch) (host : Host τ) (url : String)
    (options : Obj) (w w1 : τ) :
    (∀ status body, retryEligible (Thrown.sfetch (createError status body)) = false) ∧
    (∀ response, host.fetch url options w = (Except.ok response, w1) → response.ok = false →
      self._fetch host url options w =
        { result := Except.error
            (Thrown.sfetch (createError response.status (errorBody response)))
          world := w1, calls := 1, waits := [] }) ∧
    (∀ error, host.fetch url options w = (Except.error error, w1) → error.isError = true →
      error.name = "AbortError" →
      self._fetch host url options w =
        { result := Except.error (Thrown.sfetch (createError 408
            (JsVal.str "Request timed out. Please check your network connection.")))
          world := w1, calls := 1, waits := [] }) := by
  refine ⟨fun _ _ => rfl, ?_, ?_⟩
  · intro response h hn
    exact retry_succ_final _ 4 RETRY_DELAY w w1 _
      (fetchWithRetry_not_ok host url options w w1 response h hn) rfl
  · intro error h hi hn
    exact retry_succ_final _ 4 RETRY_DELAY w w1 _
      (fetchWithRetry_aborted host url options w w1 error h hi hn) rfl

theorem createError_never_retried_witness :
    (demoClient 3)._fetch (statusHost 504) "https://api.example.com/users" [] 0 =
      { result := Except.error
          (Thrown.sfetch (createError 504 (JsVal.str "Response type not known")))
        world := 1, calls := 1, waits := [] } ∧
    (demoClient 3)._fetch (rejectHost abortError) "https://api.example.com/users" [] 0 =
      { result := Except.error (Thrown.sfetch (createError 408
          (JsVal.str "Request timed out. Please check your network connection.")))
        world := 1, calls := 1, waits := [] } :=
  ⟨(createError_never_retried (demoClient 3) (statusHost 504) "https://api.example.com/users"
      [] 0 1).2.1 _ rfl rfl,
   (createError_never_retried (demoClient 3) (rejectHost abortError)
      "https://api.example.com/users" [] 0 1).2.2 abortError rfl rfl rfl⟩

/-! ### A failed `get` -/

/-- C13: when `get` finds no fresh entry for its key and the request fails, `get`
fails with the error of the request and leaves the client, and so the whole
cache, as it was: no entry is added and an expired entry is neither removed nor
given a new timestamp. Every later `get` for the same key is then again the
request itself and makes at least one transport attempt. -/
theorem failed_get_keeps_cache {τ : Type} (self : SimFetch) (host : Host τ) (path : String)
    (options : Option Obj) (now1 now2 : Int) (w : τ) (error : Thrown)
    (hmiss : ∀ entry, self.cache (self.cacheKey host path options) = some entry →
      ¬ (now1 - entry.timestamp < 60000))
    (hfail : (self.create host path (some (getInit options)) w).result = Except.error error) :
    (self.get host path options now1 now2 w).1.result = Except.error error ∧
    (self.get host path options now1 now2 w).2 = self ∧
    (self.get host path options now1 now2 w).2.cache = self.cache ∧
    (∀ (now3 now4 : Int) (w3 : τ), now1 ≤ now3 →
      ((self.get host path options now1 now2 w).2.get host path options now3 now4 w3).1 =
        self.create host path (some (getInit options)) w3 ∧
      1 ≤ ((self.get host path options now1 now2 w).2.get host path options now3 now4 w3).1.calls) := by
  have hm : ∀ entry, self.cache (self.cacheKey host path options) = some entry →
      ¬ (now1 - entry.timestamp < CACHE_TTL) := by
    simpa [CACHE_TTL] using hmiss
  obtain ⟨h1, -, h3⟩ := get_miss self host path options now1 now2 w hm
  have hself := h3 error hfail
  refine ⟨by rw [h1]; exact hfail, hself, by rw [hself], ?_⟩
  intro now3 now4 w3 hlater
  rw [hself]
  have hm3 : ∀ entry, self.cache (self.cacheKey host path options) = some entry →
      ¬ (now3 - entry.timestamp < CACHE_TTL) := by
    intro entry he
    have := hmiss entry he
    simp only [CACHE_TTL]
    omega
  obtain ⟨h4, -, -⟩ := get_miss self host path options now3 now4 w3 hm3
  refine ⟨h4, ?_⟩
  rw [h4]
  exact create_calls_pos self host path (some (getInit options)) w3

theorem failed_get_keeps_cache_witness :
    (warmClient.get (statusHost 503) "/users" none 60000 60001 1).2.cache = warmClient.cache ∧
    (warmClient.get (statusHost 503) "/users" none 60000 60001 1).2.cache
        (warmClient.cacheKey (statusHost 503) "/users" none) =
      some { response := firstResponse, timestamp := 0 } :=
  ⟨(failed_get_keeps_cache warmClient (statusHost 503) "/users" none 60000 60001 1
      (Thrown.sfetch (createError 503 (JsVal.str "Response type not known")))
      (by
        intro entry h
        have he : entry = { response := firstResponse, timestamp := 0 } :=
          (Option.some.inj h).symm
        rw [he]
        decide)
      rfl).2.2.1,
   rfl⟩
